import Mathlib

/-!
Verification of the TravelPlanner repository (src/travel.py).

The development shallowly embeds the program's core logic in Lean:
Python strings are modelled as `String` / `List Char`, Python ints and
floats used by the planner as `Int`, fallible constructors as `Except`,
and the optional planning result as `Option`.  Every definition below is
translated directly from the corresponding Python function in
`src/travel.py`.
-/

namespace TravelPlanner

/-- Python whitespace test used by `str.strip()` (modelled for the ASCII
whitespace the program manipulates). -/
def isPySpace (c : Char) : Bool := c.isWhitespace

/-- Python `s.split('\n')`: splits at every newline, keeping empty pieces. -/
def splitNl : List Char → List (List Char)
  | [] => [[]]
  | c :: rest =>
    if c = '\n' then [] :: splitNl rest
    else
      match splitNl rest with
      | [] => [[c]]
      | l :: ls => (c :: l) :: ls

/-- Python `str.strip()`: drop whitespace from both ends. -/
def pyStrip (l : List Char) : List Char :=
  ((l.dropWhile isPySpace).reverse.dropWhile isPySpace).reverse

/-- Python `str.strip()` on `String`s. -/
def pyStripStr (s : String) : String := String.mk (pyStrip s.toList)

/-- Python `str.lower()` (ASCII case folding, as used by the program). -/
def pyLower (l : List Char) : List Char := l.map Char.toLower

/-- Python substring test `needle in hay`.  The empty needle is contained
in every string. -/
def strContains (needle : List Char) : List Char → Bool
  | [] => needle.isEmpty
  | c :: rest => needle.isPrefixOf (c :: rest) || strContains needle rest

/-- Numeric value of a run of decimal digits, as `int(...)` computes it. -/
def digitsVal (ds : List Char) : Nat :=
  ds.foldl (fun n c => 10 * n + (c.toNat - '0'.toNat)) 0

/-- Python `re.search(r'\$(\d+)', line)`: the value of the first maximal
digit run immediately following a `$` sign, if any. -/
def findDollarNum : List Char → Option Nat
  | [] => none
  | c :: rest =>
    if c = '$' then
      match rest with
      | [] => none
      | d :: _ => if d.isDigit then some (digitsVal (rest.takeWhile Char.isDigit)) else findDollarNum rest
    else findDollarNum rest

/-- Literal pattern `nights = $` from the hotel regex. -/
def nightsTotalPat : List Char := "nights = $".toList

/-- Python `re.search(r'nights = \$(\d+)', line)`: the digit run following
the first occurrence of `nights = $` that is followed by a digit. -/
def findNightsNum : List Char → Option Nat
  | [] => none
  | c :: rest =>
    if nightsTotalPat.isPrefixOf (c :: rest) then
      match (c :: rest).drop nightsTotalPat.length with
      | d :: ds => if d.isDigit then some (digitsVal ((d :: ds).takeWhile Char.isDigit)) else findNightsNum rest
      | [] => findNightsNum rest
    else findNightsNum rest

/-- Literal marker `BEST CHOICE:`. -/
def bestChoiceMarker : List Char := "BEST CHOICE:".toList

/-- Literal marker `TOTAL ACTIVITIES:`. -/
def totalActivitiesMarker : List Char := "TOTAL ACTIVITIES:".toList

/-- Auxiliary scanner for `str.replace("BEST CHOICE:", "")`: while `skip`
is positive the current character belongs to a matched occurrence and is
dropped. -/
def removeMarkerAux : Nat → List Char → List Char
  | _, [] => []
  | skip + 1, _ :: rest => removeMarkerAux skip rest
  | 0, c :: rest =>
    if bestChoiceMarker.isPrefixOf (c :: rest) then
      removeMarkerAux (bestChoiceMarker.length - 1) rest
    else
      c :: removeMarkerAux 0 rest

/-- Python `line.replace("BEST CHOICE:", "")`: delete every occurrence of
the marker, scanning left to right. -/
def removeMarker (l : List Char) : List Char := removeMarkerAux 0 l

/-- The list `lines` built by `_extract_costs_from_response`:
`[line.strip() for line in response.split('\n') if line.strip()]`. -/
def pyLines (response : String) : List (List Char) :=
  ((splitNl response.toList).map pyStrip).filter (fun l => !l.isEmpty)

/-- The recommendation label: from the first line starting with
`BEST CHOICE:`, the text after removing the marker, stripped and
lowercased; empty when no such line exists. -/
def findBestChoice : List (List Char) → List Char
  | [] => []
  | l :: ls =>
    if bestChoiceMarker.isPrefixOf l then pyLower (pyStrip (removeMarker l))
    else findBestChoice ls

/-- The three `response_type` values passed to the extractor. -/
inductive Category where
  | flight
  | hotel
  | activity

/-- Flight branch of the extractor: scan the lines; on the first line
containing the label and a `$`, take the first `$`-amount; if the amount
parse fails, keep scanning. -/
def flightScan (recommendation : List Char) : List (List Char) → Option (Int × List Char)
  | [] => none
  | l :: ls =>
    if strContains recommendation (pyLower l) && l.contains '$' then
      match findDollarNum l with
      | some n => some ((n : Int), l)
      | none => flightScan recommendation ls
    else flightScan recommendation ls

/-- Hotel branch of the extractor: on the first line containing the label
and a `$`, prefer the `nights = $<total>` amount, fall back to the bare
`$<amount>` times `nights`, and keep cost `0` when both parses fail; the
matched line is always the details, and scanning stops there. -/
def hotelScan (recommendation : List Char) (nights : Int) : List (List Char) → Option (Int × List Char)
  | [] => none
  | l :: ls =>
    if strContains recommendation (pyLower l) && l.contains '$' then
      match findNightsNum l with
      | some total => some ((total : Int), l)
      | none =>
        match findDollarNum l with
        | some perNight => some ((perNight : Int) * nights, l)
        | none => some (0, l)
    else hotelScan recommendation nights ls

/-- Activity branch of the extractor: scan for a line starting with
`TOTAL ACTIVITIES:` whose first `$`-amount parses; if the parse fails the
scan continues. -/
def activityScan : List (List Char) → Option Int
  | [] => none
  | l :: ls =>
    if totalActivitiesMarker.isPrefixOf l then
      match findDollarNum l with
      | some n => some ((n : Int))
      | none => activityScan ls
    else activityScan ls

/-- Embedding of `TravelPlannerAG2._extract_costs_from_response`.
`nights` is the planner's `self.nights`.  Returns `(cost, details)`,
with `(0, "No details available")` as the nothing-extracted sentinel. -/
def extract_costs_from_response (nights : Int) (response : String) (response_type : Category) : Int × String :=
  let lines := pyLines response
  let recommendation := findBestChoice lines
  match response_type with
  | Category.flight =>
    match flightScan recommendation lines with
    | some (c, l) => (c, String.mk l)
    | none => (0, "No details available")
  | Category.hotel =>
    match hotelScan recommendation nights lines with
    | some (c, l) => (c, String.mk l)
    | none => (0, "No details available")
  | Category.activity =>
    match activityScan lines with
    | some c => (c, "Activity plan created")
    | none => (0, "No details available")

/-- Embedding of the `TravelPlannerAG2` instance state set up by
`__init__` (budget, stripped origin/destination, nights).  The Python
float budget and int nights are modelled as `Int`. -/
structure TravelPlannerAG2 where
  budget : Int
  origin : String
  destination : String
  nights : Int
deriving DecidableEq

/-- Embedding of `TravelPlannerAG2.__init__`: stores the stripped
origin/destination and validates budget, nights and the two names,
raising (modelled as `Except.error`) exactly as the constructor does. -/
def initPlanner (budget : Int) (origin destination : String) (nights : Int) : Except String TravelPlannerAG2 :=
  if budget ≤ 0 then Except.error "Budget must be positive"
  else if nights ≤ 0 then Except.error "Number of nights must be positive"
  else if pyStripStr origin = "" ∨ pyStripStr destination = "" then
    Except.error "Origin and destination are required"
  else
    Except.ok
      { budget := budget, origin := pyStripStr origin
        destination := pyStripStr destination, nights := nights }

/-- The shapes `agent.generate_reply` may return: a dict (with or without
a `"content"` entry), a plain string, or any other value rendered through
`str(...)`. -/
inductive AgentRawResponse where
  | asDict (content : Option String)
  | asStr (s : String)
  | asOther (rendered : String)

/-- Normalisation of a successful reply performed by
`get_agent_recommendation`. -/
def handleResponse : AgentRawResponse → String
  | AgentRawResponse.asDict (some c) => c
  | AgentRawResponse.asDict none => "No response generated"
  | AgentRawResponse.asStr s => s
  | AgentRawResponse.asOther r => r

/-- Embedding of `TravelPlannerAG2.get_agent_recommendation`: the outcome
of the agent call is passed in as an `Except`; any exception is caught and
converted into the fixed error reply string. -/
def get_agent_recommendation (agentName : String) (outcome : Except String AgentRawResponse) : String :=
  match outcome with
  | Except.ok r => handleResponse r
  | Except.error _ => "Error: Unable to get recommendation from " ++ agentName

/-- The structured result dict returned by `plan_trip`. -/
structure TripPlanResult where
  total_cost : Int
  remaining_budget : Int
  within_budget : Bool
  flight_cost : Int
  hotel_cost : Int
  activity_cost : Int
  flight_recommendation : String
  hotel_recommendation : String
  activity_recommendation : String
deriving DecidableEq

/-- Embedding of `TravelPlannerAG2.plan_trip`.  The three agent-call
outcomes are inputs; each is absorbed by `get_agent_recommendation`, the
three replies are fed to the extractor, and the totals are assembled.
The surrounding `try/except` returning `None` is modelled by the
`Option` result type; no step of the embedded body can fail. -/
def plan_trip (p : TravelPlannerAG2) (flightOutcome hotelOutcome activityOutcome : Except String AgentRawResponse) : Option TripPlanResult :=
  let flight_response := get_agent_recommendation "FlightAgent" flightOutcome
  let hotel_response := get_agent_recommendation "HotelAgent" hotelOutcome
  let activity_response := get_agent_recommendation "ActivityAgent" activityOutcome
  let fc := extract_costs_from_response p.nights flight_response Category.flight
  let hc := extract_costs_from_response p.nights hotel_response Category.hotel
  let ac := extract_costs_from_response p.nights activity_response Category.activity
  let total_cost := fc.1 + hc.1 + ac.1
  let remaining := p.budget - total_cost
  some
    { total_cost := total_cost
      remaining_budget := remaining
      within_budget := decide (total_cost ≤ p.budget)
      flight_cost := fc.1
      hotel_cost := hc.1
      activity_cost := ac.1
      flight_recommendation := fc.2
      hotel_recommendation := hc.2
      activity_recommendation := ac.2 }

/-- Condition under which the flight loop can stop at a line: the line
contains the label and a `$`, and its first `$`-amount parses. -/
def flightLineCond (recommendation l : List Char) : Bool :=
  strContains recommendation (pyLower l) && l.contains '$' && (findDollarNum l).isSome

/-- Condition under which the hotel loop stops at a line: the line
contains the label and a `$` (no parse requirement). -/
def hotelLineCond (recommendation l : List Char) : Bool :=
  strContains recommendation (pyLower l) && l.contains '$'

/-- Condition under which the activity loop can stop at a line: the line
starts with `TOTAL ACTIVITIES:` and its first `$`-amount parses. -/
def activityLineCond (l : List Char) : Bool :=
  totalActivitiesMarker.isPrefixOf l && (findDollarNum l).isSome

/-- Cost computed from a matched hotel line: the `nights = $` total if
present, else the bare `$`-amount times `nights`, else `0`. -/
def hotelLineCost (nights : Int) (l : List Char) : Int :=
  match findNightsNum l with
  | some total => (total : Int)
  | none =>
    match findDollarNum l with
    | some perNight => (perNight : Int) * nights
    | none => 0

theorem flightScan_of_find (recommendation : List Char) (lines : List (List Char))
    (l : List Char) (a : Nat)
    (hfind : lines.find? (flightLineCond recommendation) = some l)
    (hnum : findDollarNum l = some a) :
    flightScan recommendation lines = some ((a : Int), l) := by
  induction lines with
  | nil => simp [List.find?] at hfind
  | cons x xs ih =>
    by_cases hx : flightLineCond recommendation x = true
    · rw [List.find?_cons_of_pos _ hx] at hfind
      cases hfind
      have hx' : (strContains recommendation (pyLower l) && l.contains '$') = true := by
        unfold flightLineCond at hx
        rw [Bool.and_eq_true, Bool.and_eq_true] at hx
        rw [Bool.and_eq_true]
        exact hx.1
      simp only [flightScan]
      rw [if_pos hx', hnum]
    · rw [List.find?_cons_of_neg _ hx] at hfind
      by_cases hc : (strContains recommendation (pyLower x) && x.contains '$') = true
      · have hnone : findDollarNum x = none := by
          rcases h' : findDollarNum x with _ | n
          · rfl
          · exact absurd (by unfold flightLineCond; rw [Bool.and_eq_true]; exact ⟨hc, by rw [h']; rfl⟩) hx
        simp only [flightScan]
        rw [if_pos hc, hnone, ih hfind]
      · simp only [flightScan]
        rw [if_neg hc, ih hfind]

theorem flightScan_eq_none (recommendation : List Char) (lines : List (List Char))
    (h : ∀ l ∈ lines, flightLineCond recommendation l = false) :
    flightScan recommendation lines = none := by
  induction lines with
  | nil => rfl
  | cons x xs ih =>
    have hx := h x (List.mem_cons_self x xs)
    have ih' := ih (fun l hl => h l (List.mem_cons_of_mem x hl))
    by_cases hc : (strContains recommendation (pyLower x) && x.contains '$') = true
    · have hnone : findDollarNum x = none := by
        rcases h' : findDollarNum x with _ | n
        · rfl
        · unfold flightLineCond at hx
          rw [hc, h'] at hx
          simp at hx
      simp only [flightScan]
      rw [if_pos hc, hnone, ih']
    · simp only [flightScan]
      rw [if_neg hc, ih']

theorem hotelScan_of_find (recommendation : List Char) (nights : Int)
    (lines : List (List Char)) (l : List Char)
    (hfind : lines.find? (hotelLineCond recommendation) = some l) :
    hotelScan recommendation nights lines = some (hotelLineCost nights l, l) := by
  induction lines with
  | nil => simp [List.find?] at hfind
  | cons x xs ih =>
    by_cases hx : hotelLineCond recommendation x = true
    · rw [List.find?_cons_of_pos _ hx] at hfind
      cases hfind
      unfold hotelLineCond at hx
      simp only [hotelScan, hotelLineCost]
      rw [if_pos hx]
      rcases h1 : findNightsNum l with _ | total
      · rcases h2 : findDollarNum l with _ | perNight <;> simp [h1, h2]
      · simp [h1]
    · rw [List.find?_cons_of_neg _ hx] at hfind
      unfold hotelLineCond at hx
      simp only [hotelScan]
      rw [if_neg hx, ih hfind]

theorem hotelScan_eq_none (recommendation : List Char) (nights : Int)
    (lines : List (List Char))
    (h : ∀ l ∈ lines, hotelLineCond recommendation l = false) :
    hotelScan recommendation nights lines = none := by
  induction lines with
  | nil => rfl
  | cons x xs ih =>
    have hx := h x (List.mem_cons_self x xs)
    unfold hotelLineCond at hx
    simp only [hotelScan]
    rw [if_neg (by rw [hx]; exact Bool.false_ne_true),
      ih (fun l hl => h l (List.mem_cons_of_mem x hl))]

theorem activityScan_of_find (lines : List (List Char)) (l : List Char) (a : Nat)
    (hfind : lines.find? activityLineCond = some l)
    (hnum : findDollarNum l = some a) :
    activityScan lines = some ((a : Int)) := by
  induction lines with
  | nil => simp [List.find?] at hfind
  | cons x xs ih =>
    by_cases hx : activityLineCond x = true
    · rw [List.find?_cons_of_pos _ hx] at hfind
      cases hfind
      unfold activityLineCond at hx
      rw [Bool.and_eq_true] at hx
      simp only [activityScan]
      rw [if_pos hx.1, hnum]
    · rw [List.find?_cons_of_neg _ hx] at hfind
      by_cases hc : totalActivitiesMarker.isPrefixOf x = true
      · have hnone : findDollarNum x = none := by
          rcases h' : findDollarNum x with _ | n
          · rfl
          · exact absurd (by unfold activityLineCond; rw [Bool.and_eq_true]; exact ⟨hc, by rw [h']; rfl⟩) hx
        simp only [activityScan]
        rw [if_pos hc, hnone, ih hfind]
      · simp only [activityScan]
        rw [if_neg hc, ih hfind]

theorem activityScan_eq_none (lines : List (List Char))
    (h : ∀ l ∈ lines, activityLineCond l = false) :
    activityScan lines = none := by
  induction lines with
  | nil => rfl
  | cons x xs ih =>
    have hx := h x (List.mem_cons_self x xs)
    have ih' := ih (fun l hl => h l (List.mem_cons_of_mem x hl))
    by_cases hc : totalActivitiesMarker.isPrefixOf x = true
    · have hnone : findDollarNum x = none := by
        rcases h' : findDollarNum x with _ | n
        · rfl
        · unfold activityLineCond at hx
          rw [hc, h'] at hx
          simp at hx
      simp only [activityScan]
      rw [if_pos hc, hnone, ih']
    · simp only [activityScan]
      rw [if_neg hc, ih']

theorem flightScan_nonneg (recommendation : List Char) (lines : List (List Char))
    (pr : Int × List Char) (h : flightScan recommendation lines = some pr) : 0 ≤ pr.1 := by
  induction lines with
  | nil => simp [flightScan] at h
  | cons x xs ih =>
    simp only [flightScan] at h
    split at h
    · split at h
      · cases h; exact Int.natCast_nonneg _
      · exact ih h
    · exact ih h

theorem hotelScan_nonneg (recommendation : List Char) (nights : Int) (hn : 0 ≤ nights)
    (lines : List (List Char)) (pr : Int × List Char)
    (h : hotelScan recommendation nights lines = some pr) : 0 ≤ pr.1 := by
  induction lines with
  | nil => simp [hotelScan] at h
  | cons x xs ih =>
    simp only [hotelScan] at h
    split at h
    · split at h
      · cases h; exact Int.natCast_nonneg _
      · split at h
        · cases h; exact mul_nonneg (Int.natCast_nonneg _) hn
        · cases h; exact le_refl 0
    · exact ih h

theorem activityScan_nonneg (lines : List (List Char)) (c : Int)
    (h : activityScan lines = some c) : 0 ≤ c := by
  induction lines with
  | nil => simp [activityScan] at h
  | cons x xs ih =>
    simp only [activityScan] at h
    split at h
    · split at h
      · cases h; exact Int.natCast_nonneg _
      · exact ih h
    · exact ih h

theorem extract_cost_nonneg (nights : Int) (hn : 0 ≤ nights) (response : String) (t : Category) :
    0 ≤ (extract_costs_from_response nights response t).1 := by
  cases t
  case flight =>
    simp only [extract_costs_from_response]
    rcases h : flightScan (findBestChoice (pyLines response)) (pyLines response) with _ | pr
    · simp
    · simpa using flightScan_nonneg _ _ _ h
  case hotel =>
    simp only [extract_costs_from_response]
    rcases h : hotelScan (findBestChoice (pyLines response)) nights (pyLines response) with _ | pr
    · simp
    · simpa using hotelScan_nonneg _ _ hn _ _ h
  case activity =>
    simp only [extract_costs_from_response]
    rcases h : activityScan (pyLines response) with _ | c
    · simp
    · simpa using activityScan_nonneg _ _ h

theorem initPlanner_ok_bounds (b : Int) (o d : String) (n : Int) (p : TravelPlannerAG2)
    (h : initPlanner b o d n = Except.ok p) :
    0 < p.budget ∧ 0 < p.nights ∧ p.budget = b ∧ p.nights = n := by
  unfold initPlanner at h
  by_cases h1 : b ≤ 0
  · rw [if_pos h1] at h
    exact Except.noConfusion h
  · rw [if_neg h1] at h
    by_cases h2 : n ≤ 0
    · rw [if_pos h2] at h
      exact Except.noConfusion h
    · rw [if_neg h2] at h
      by_cases h3 : pyStripStr o = "" ∨ pyStripStr d = ""
      · rw [if_pos h3] at h
        exact Except.noConfusion h
      · rw [if_neg h3] at h
        cases h
        exact ⟨lt_of_not_le h1, lt_of_not_le h2, rfl, rfl⟩

/-- Per-category condition for a line to stop the extraction scan with a
cost recorded.  For flight and activity a failed amount parse lets the
scan continue, so a successful parse is part of the condition; for hotel
the scan stops at label-and-dollar regardless of the parses. -/
def matchableLine (recommendation : List Char) (t : Category) (l : List Char) : Bool :=
  match t with
  | Category.flight => flightLineCond recommendation l
  | Category.hotel => hotelLineCond recommendation l
  | Category.activity => activityLineCond l

/-- Whether some line of the reply satisfies the category's effective
match rule, computed with the reply's own (possibly empty) label. -/
def hasMatchableLine (response : String) (t : Category) : Bool :=
  (pyLines response).any (matchableLine (findBestChoice (pyLines response)) t)

theorem extract_sentinel_of_no_match (nights : Int) (response : String) (t : Category)
    (h : hasMatchableLine response t = false) :
    extract_costs_from_response nights response t = (0, "No details available") := by
  unfold hasMatchableLine at h
  rw [List.any_eq_false] at h
  cases t
  case flight =>
    have hn : flightScan (findBestChoice (pyLines response)) (pyLines response) = none :=
      flightScan_eq_none _ _ (fun l hl => by
        have := h l hl
        simp only [matchableLine] at this
        simpa using this)
    simp only [extract_costs_from_response, hn]
  case hotel =>
    have hn : hotelScan (findBestChoice (pyLines response)) nights (pyLines response) = none :=
      hotelScan_eq_none _ _ _ (fun l hl => by
        have := h l hl
        simp only [matchableLine] at this
        simpa using this)
    simp only [extract_costs_from_response, hn]
  case activity =>
    have hn : activityScan (pyLines response) = none :=
      activityScan_eq_none _ (fun l hl => by
        have := h l hl
        simp only [matchableLine] at this
        simpa using this)
    simp only [extract_costs_from_response, hn]

/-- Check that a character list does not start with a digit (how the
regex engine rejects continuing a `\d+` match). -/
def headNotDigit : List Char → Bool
  | [] => true
  | c :: _ => !c.isDigit

theorem takeWhile_all_append (p : Char → Bool) (ds rest : List Char) (h : ds.all p = true) :
    (ds ++ rest).takeWhile p = ds ++ rest.takeWhile p := by
  induction ds with
  | nil => simp
  | cons c cs ih =>
    rw [List.all_cons, Bool.and_eq_true] at h
    simp only [List.cons_append, List.takeWhile_cons]
    rw [if_pos h.1, ih h.2]

theorem takeWhile_eq_nil_of_headNotDigit (rest : List Char) (h : headNotDigit rest = true) :
    rest.takeWhile Char.isDigit = [] := by
  cases rest with
  | nil => rfl
  | cons c t =>
    simp only [headNotDigit, Bool.not_eq_true'] at h
    simp only [List.takeWhile_cons]
    rw [if_neg (by rw [h]; exact Bool.false_ne_true)]

theorem findDollarNum_cons_dollar (d : Char) (tail : List Char) :
    findDollarNum ('$' :: d :: tail) =
      if d.isDigit = true then some (digitsVal ((d :: tail).takeWhile Char.isDigit))
      else findDollarNum (d :: tail) := rfl

theorem findDollarNum_cons_of_ne (c : Char) (rest : List Char) (hc : ¬ c = '$') :
    findDollarNum (c :: rest) = findDollarNum rest := by
  simp only [findDollarNum]
  split
  · split <;> simp_all
  · rfl

theorem findDollarNum_at_head (d : Char) (tail : List Char) (hd : d.isDigit = true) :
    findDollarNum ('$' :: d :: tail) = some (digitsVal ((d :: tail).takeWhile Char.isDigit)) := by
  rw [findDollarNum_cons_dollar, if_pos hd]

theorem findDollarNum_first_run (a ds rest : List Char)
    (h1 : findDollarNum a = none) (h2 : ds ≠ []) (h3 : ds.all Char.isDigit = true)
    (h4 : headNotDigit rest = true) :
    findDollarNum (a ++ '$' :: (ds ++ rest)) = some (digitsVal ds) := by
  induction a with
  | nil =>
    rcases ds with _ | ⟨d, ds'⟩
    · exact absurd rfl h2
    · have h3' := h3
      rw [List.all_cons, Bool.and_eq_true] at h3'
      rw [List.nil_append, List.cons_append, findDollarNum_at_head d (ds' ++ rest) h3'.1]
      rw [← List.cons_append, takeWhile_all_append _ _ _ h3,
        takeWhile_eq_nil_of_headNotDigit _ h4, List.append_nil]
  | cons c a' ih =>
    by_cases hc : c = '$'
    · subst hc
      rcases a' with _ | ⟨e, a''⟩
      · rw [List.cons_append, List.nil_append, findDollarNum_cons_dollar,
          if_neg (by rw [show ('$').isDigit = false from rfl]; exact Bool.false_ne_true)]
        have := ih rfl
        rw [List.nil_append] at this
        exact this
      · rw [findDollarNum_cons_dollar] at h1
        have he : ¬ e.isDigit = true := by
          intro h'
          rw [if_pos h'] at h1
          exact Option.noConfusion h1
        rw [if_neg he] at h1
        rw [List.cons_append, List.cons_append, findDollarNum_cons_dollar, if_neg he]
        have := ih h1
        rw [List.cons_append] at this
        exact this
    · have h1' : findDollarNum a' = none := by
        rw [findDollarNum_cons_of_ne _ _ hc] at h1
        exact h1
      rw [List.cons_append, findDollarNum_cons_of_ne _ _ hc]
      exact ih h1'

theorem toList_append (s t : String) : (s ++ t).toList = s.toList ++ t.toList :=
  String.data_append s t

theorem splitNl_cons_newline (ys : List Char) : splitNl ('\n' :: ys) = [] :: splitNl ys := rfl

theorem splitNl_cons_of_ne (c : Char) (rest : List Char) (hc : ¬ c = '\n') :
    splitNl (c :: rest) =
      match splitNl rest with
      | [] => [[c]]
      | l :: ls => (c :: l) :: ls := by
  simp only [splitNl]
  rw [if_neg hc]

theorem splitNl_ne_nil (l : List Char) : splitNl l ≠ [] := by
  induction l with
  | nil => simp [splitNl]
  | cons c rest ih =>
    by_cases hc : c = '\n'
    · subst hc
      rw [splitNl_cons_newline]
      simp
    · rw [splitNl_cons_of_ne _ _ hc]
      rcases h : splitNl rest with _ | ⟨l, ls⟩ <;> simp

theorem splitNl_append_newline (xs ys : List Char) :
    splitNl (xs ++ '\n' :: ys) = splitNl xs ++ splitNl ys := by
  induction xs with
  | nil =>
    rw [List.nil_append, splitNl_cons_newline]
    rfl
  | cons c xs ih =>
    rw [List.cons_append]
    by_cases hc : c = '\n'
    · subst hc
      rw [splitNl_cons_newline, splitNl_cons_newline, ih, List.cons_append]
    · rw [splitNl_cons_of_ne _ _ hc, splitNl_cons_of_ne _ _ hc, ih]
      rcases h : splitNl xs with _ | ⟨l, ls⟩
      · exact absurd h (splitNl_ne_nil xs)
      · simp

theorem splitNl_of_no_newline (xs : List Char) (h : ¬ '\n' ∈ xs) : splitNl xs = [xs] := by
  induction xs with
  | nil => rfl
  | cons c rest ih =>
    by_cases hc : c = '\n'
    · subst hc
      exact absurd (List.mem_cons_self _ _) h
    · rw [splitNl_cons_of_ne _ _ hc, ih (fun m => h (List.mem_cons_of_mem c m))]

theorem dropWhile_append_last (p : Char → Bool) (xs : List Char) (c : Char) (hc : p c = false) :
    (xs ++ [c]).dropWhile p = xs.dropWhile p ++ [c] := by
  induction xs with
  | nil =>
    simp only [List.nil_append, List.dropWhile_cons, List.dropWhile_nil]
    rw [if_neg (by rw [hc]; exact Bool.false_ne_true)]
  | cons x xs ih =>
    simp only [List.cons_append, List.dropWhile_cons]
    by_cases hx : p x = true
    · rw [if_pos hx, if_pos hx, ih]
    · rw [if_neg hx, if_neg hx, List.cons_append]

theorem pyStrip_cons_head (c : Char) (l : List Char) (hc : isPySpace c = false) :
    ∃ t, pyStrip (c :: l) = c :: t := by
  unfold pyStrip
  rw [List.dropWhile_cons, if_neg (by rw [hc]; exact Bool.false_ne_true)]
  rw [List.reverse_cons, dropWhile_append_last _ _ _ hc, List.reverse_append]
  exact ⟨(l.reverse.dropWhile isPySpace).reverse, by simp⟩

theorem totalMarker_not_prefix_B (t : List Char) :
    totalActivitiesMarker.isPrefixOf ('B' :: t) = false := by
  show (('T' == 'B') && ("OTAL ACTIVITIES:".toList.isPrefixOf t)) = false
  rw [show ('T' == 'B') = false from rfl]
  exact Bool.false_and _

theorem activityScan_append_single (xs : List (List Char)) (e : List Char)
    (he : totalActivitiesMarker.isPrefixOf e = false) :
    activityScan (xs ++ [e]) = activityScan xs := by
  induction xs with
  | nil =>
    rw [List.nil_append]
    simp only [activityScan]
    rw [if_neg (by rw [he]; exact Bool.false_ne_true)]
  | cons x xs ih =>
    rw [List.cons_append]
    simp only [activityScan]
    by_cases hx : totalActivitiesMarker.isPrefixOf x = true
    · rw [if_pos hx, if_pos hx]
      rcases h : findDollarNum x with _ | n
      · exact ih
      · rfl
    · rw [if_neg hx, if_neg hx]
      exact ih

theorem pyLines_append_bestchoice (response choice : String) (hnl : ¬ '\n' ∈ choice.toList) :
    ∃ t, pyLines (response ++ "\nBEST CHOICE: " ++ choice) = pyLines response ++ ['B' :: t] := by
  have hD : ¬ '\n' ∈ ("BEST CHOICE: ".toList ++ choice.toList) := by
    intro hm
    rcases List.mem_append.mp hm with hm | hm
    · revert hm
      decide
    · exact hnl hm
  have hL : (response ++ "\nBEST CHOICE: " ++ choice).toList
      = response.toList ++ '\n' :: ("BEST CHOICE: ".toList ++ choice.toList) := by
    rw [toList_append, toList_append]
    rw [show "\nBEST CHOICE: ".toList = '\n' :: "BEST CHOICE: ".toList from rfl]
    rw [List.append_assoc, List.cons_append]
  obtain ⟨t, ht⟩ :=
    pyStrip_cons_head 'B' ("EST CHOICE: ".toList ++ choice.toList) (by rfl)
  refine ⟨t, ?_⟩
  unfold pyLines
  rw [hL, splitNl_append_newline, splitNl_of_no_newline _ hD]
  rw [List.map_append, List.filter_append]
  have hBD : ("BEST CHOICE: ".toList ++ choice.toList) = 'B' :: ("EST CHOICE: ".toList ++ choice.toList) := rfl
  rw [show List.map pyStrip [("BEST CHOICE: ".toList ++ choice.toList)]
      = [pyStrip ("BEST CHOICE: ".toList ++ choice.toList)] from rfl]
  rw [hBD, ht]
  rfl

theorem extract_activity_append_bestchoice (nights nights2 : Int) (response choice : String)
    (hnl : ¬ '\n' ∈ choice.toList) :
    extract_costs_from_response nights2 (response ++ "\nBEST CHOICE: " ++ choice) Category.activity
      = extract_costs_from_response nights response Category.activity := by
  obtain ⟨t, ht⟩ := pyLines_append_bestchoice response choice hnl
  simp only [extract_costs_from_response]
  rw [ht, activityScan_append_single _ _ (totalMarker_not_prefix_B t)]

/-- Extraction as performed by a given planner instance (the method reads
`self.nights` and nothing else from the instance). -/
def extractForPlanner (p : TravelPlannerAG2) (response : String) (t : Category) : Int × String :=
  extract_costs_from_response p.nights response t

/-- Planner used to instantiate witnesses. -/
def samplePlanner : TravelPlannerAG2 :=
  { budget := 3500, origin := "New York", destination := "Tokyo", nights := 3 }

/-- The plan record produced when all three agent calls fail. -/
def sampleErrResult : TripPlanResult :=
  { total_cost := 0, remaining_budget := 3500, within_budget := true
    flight_cost := 0, hotel_cost := 0, activity_cost := 0
    flight_recommendation := "No details available"
    hotel_recommendation := "No details available"
    activity_recommendation := "No details available" }

/-- C1: for every planning run started from a validated construction that
returns a result, the three category costs are non-negative, `total_cost`
is exactly their sum, `remaining_budget` is budget minus total, and
`within_budget` holds exactly when the total does not exceed the budget
(equality included). -/
theorem claim_c1 (b : Int) (o d : String) (n : Int) (p : TravelPlannerAG2)
    (fo ho ao : Except String AgentRawResponse) (r : TripPlanResult)
    (hp : initPlanner b o d n = Except.ok p)
    (hr : plan_trip p fo ho ao = some r) :
    0 ≤ r.flight_cost ∧ 0 ≤ r.hotel_cost ∧ 0 ≤ r.activity_cost ∧
    r.total_cost = r.flight_cost + r.hotel_cost + r.activity_cost ∧
    r.remaining_budget = p.budget - r.total_cost ∧
    (r.within_budget = true ↔ r.total_cost ≤ p.budget) := by
  obtain ⟨-, hn, -, -⟩ := initPlanner_ok_bounds b o d n p hp
  have hn' : (0 : Int) ≤ p.nights := le_of_lt hn
  simp only [plan_trip] at hr
  injection hr with hr
  subst hr
  exact ⟨extract_cost_nonneg _ hn' _ _, extract_cost_nonneg _ hn' _ _,
    extract_cost_nonneg _ hn' _ _, rfl, rfl, ⟨of_decide_eq_true, decide_eq_true⟩⟩

/-- Witness for C1 at a concrete validated planner and three failed agent
calls. -/
theorem claim_c1_witness :
    0 ≤ sampleErrResult.flight_cost ∧ 0 ≤ sampleErrResult.hotel_cost ∧
    0 ≤ sampleErrResult.activity_cost ∧
    sampleErrResult.total_cost
      = sampleErrResult.flight_cost + sampleErrResult.hotel_cost + sampleErrResult.activity_cost ∧
    sampleErrResult.remaining_budget = samplePlanner.budget - sampleErrResult.total_cost ∧
    (sampleErrResult.within_budget = true ↔ sampleErrResult.total_cost ≤ samplePlanner.budget) :=
  claim_c1 3500 "New York" "Tokyo" 3 samplePlanner
    (Except.error "boom") (Except.error "boom") (Except.error "boom") sampleErrResult rfl rfl

/-- Flight reply with no `BEST CHOICE:` line but a `$`-bearing line. -/
def c2FlightReply : String := "Standard: Korean Air - $1320 (19h 10m, 1 stop (Seoul))"

/-- Hotel reply whose matched line has a `$` not followed by digits. -/
def c2HotelReply : String := "BEST CHOICE: Mid-Range\nMid-Range: Hotel X - $ (City Center)"

/-- C2 counterexample: a flight reply with no `BEST CHOICE:` line still
extracts a cost (the empty label matches every line), and a hotel matched
line whose numeric parses fail returns the matched line as details, so
neither case returns the sentinel the claim demands. -/
theorem claim_c2_counterexample :
    ((pyLines c2FlightReply).all fun l => !(bestChoiceMarker.isPrefixOf l)) = true ∧
    extract_costs_from_response 3 c2FlightReply Category.flight
      = (1320, "Standard: Korean Air - $1320 (19h 10m, 1 stop (Seoul))") ∧
    extract_costs_from_response 3 c2FlightReply Category.flight ≠ (0, "No details available") ∧
    extract_costs_from_response 3 c2HotelReply Category.hotel
      = (0, "Mid-Range: Hotel X - $ (City Center)") ∧
    extract_costs_from_response 3 c2HotelReply Category.hotel ≠ (0, "No details available") :=
  ⟨by decide, by decide, by decide, by decide, by decide⟩

/-- C2 (amended): if no line of the reply satisfies the category's
effective match rule — computed with the reply's own label, which is empty
(and matches every line) when no `BEST CHOICE:` line exists; for flight
and activity a line only counts when its `$`-amount parses, while for
hotel label-plus-`$` suffices — then the extractor returns exactly the
sentinel `(0, "No details available")`. -/
theorem claim_c2_amended (nights : Int) (response : String) (t : Category)
    (h : hasMatchableLine response t = false) :
    extract_costs_from_response nights response t = (0, "No details available") :=
  extract_sentinel_of_no_match nights response t h

/-- Witness for the amended C2 on a reply with no matchable line. -/
theorem claim_c2_amended_witness :
    hasMatchableLine "hello world" Category.flight = false ∧
    extract_costs_from_response 3 "hello world" Category.flight = (0, "No details available") :=
  ⟨by decide, claim_c2_amended 3 "hello world" Category.flight (by decide)⟩

/-- C3: a failed agent call is converted into the fixed error reply
string for the agent's role, and extracting from that string yields the
zero-cost sentinel for every category and every `nights` value. -/
theorem claim_c3 (e : String) (nights : Int) (t : Category) (role : String)
    (hrole : role = "FlightAgent" ∨ role = "HotelAgent" ∨ role = "ActivityAgent") :
    get_agent_recommendation role (Except.error e)
      = "Error: Unable to get recommendation from " ++ role ∧
    extract_costs_from_response nights ("Error: Unable to get recommendation from " ++ role) t
      = (0, "No details available") := by
  refine ⟨rfl, ?_⟩
  rcases hrole with rfl | rfl | rfl <;> cases t <;> rfl

/-- Witness for C3 at the flight role and flight category. -/
theorem claim_c3_witness :
    get_agent_recommendation "FlightAgent" (Except.error "boom")
      = "Error: Unable to get recommendation from " ++ "FlightAgent" ∧
    extract_costs_from_response 3 ("Error: Unable to get recommendation from " ++ "FlightAgent")
        Category.flight
      = (0, "No details available") :=
  claim_c3 "boom" 3 Category.flight "FlightAgent" (Or.inl rfl)

/-- Scenario B hotel reply (multi-night total present). -/
def c4Reply : String :=
  "BEST CHOICE: Mid-Range\nMid-Range: Hotel des Grands Boulevards - $180 (2nd Arr., 3 nights = $540)"

/-- The matched line of `c4Reply`. -/
def c4Line : List Char :=
  "Mid-Range: Hotel des Grands Boulevards - $180 (2nd Arr., 3 nights = $540)".toList

/-- C4: on the first hotel line containing the label and a `$`, a
`nights = $<amount>` total is returned as the cost when present;
otherwise the bare `$<amount>` is multiplied by the requested nights; the
details are the matched line in both cases.  Both concrete scenarios with
nights = 3 yield cost 540. -/
theorem claim_c4 (nights : Int) (response : String) (l : List Char) (a : Nat)
    (hfind : (pyLines response).find? (hotelLineCond (findBestChoice (pyLines response))) = some l) :
    (findNightsNum l = some a →
      extract_costs_from_response nights response Category.hotel = ((a : Int), String.mk l)) ∧
    (findNightsNum l = none → findDollarNum l = some a →
      extract_costs_from_response nights response Category.hotel
        = ((a : Int) * nights, String.mk l)) ∧
    extract_costs_from_response 3 c4Reply Category.hotel
      = (540, "Mid-Range: Hotel des Grands Boulevards - $180 (2nd Arr., 3 nights = $540)") ∧
    extract_costs_from_response 3 "BEST CHOICE: Mid-Range\nMid-Range: X - $180 (City Center)"
        Category.hotel
      = (540, "Mid-Range: X - $180 (City Center)") := by
  have hscan := hotelScan_of_find (findBestChoice (pyLines response)) nights (pyLines response) l hfind
  refine ⟨?_, ?_, by decide, by decide⟩
  · intro h1
    simp only [extract_costs_from_response, hscan, hotelLineCost, h1]
  · intro h1 h2
    simp only [extract_costs_from_response, hscan, hotelLineCost, h1, h2]

/-- Witness for C4 at scenario B (`nights = $540` present on the matched
line). -/
theorem claim_c4_witness :
    (findNightsNum c4Line = some 540 →
      extract_costs_from_response 3 c4Reply Category.hotel = (540, String.mk c4Line)) ∧
    (findNightsNum c4Line = none → findDollarNum c4Line = some 540 →
      extract_costs_from_response 3 c4Reply Category.hotel = (540 * 3, String.mk c4Line)) ∧
    extract_costs_from_response 3 c4Reply Category.hotel
      = (540, "Mid-Range: Hotel des Grands Boulevards - $180 (2nd Arr., 3 nights = $540)") ∧
    extract_costs_from_response 3 "BEST CHOICE: Mid-Range\nMid-Range: X - $180 (City Center)"
        Category.hotel
      = (540, "Mid-Range: X - $180 (City Center)") :=
  claim_c4 3 c4Reply c4Line 540 (by decide)

/-- Scenario A flight reply. -/
def c5Reply : String :=
  "BEST CHOICE: Standard\nStandard: Korean Air - $1320 (19h 10m, 1 stop (Seoul))"

/-- The matched line of `c5Reply`. -/
def c5Line : List Char := "Standard: Korean Air - $1320 (19h 10m, 1 stop (Seoul))".toList

/-- C5: the flight extraction stops at the first line containing the
label and a parsable `$`-amount, returns that first amount as cost and
the full matched line as details; scenario A yields
`(1320, "Standard: Korean Air - $1320 (19h 10m, 1 stop (Seoul))")`. -/
theorem claim_c5 (nights : Int) (response : String) (l : List Char) (a : Nat)
    (hfind : (pyLines response).find? (flightLineCond (findBestChoice (pyLines response))) = some l)
    (hnum : findDollarNum l = some a) :
    extract_costs_from_response nights response Category.flight = ((a : Int), String.mk l) ∧
    extract_costs_from_response nights c5Reply Category.flight
      = (1320, "Standard: Korean Air - $1320 (19h 10m, 1 stop (Seoul))") := by
  have hscan := flightScan_of_find _ _ _ _ hfind hnum
  exact ⟨by simp only [extract_costs_from_response, hscan], rfl⟩

/-- Witness for C5 at scenario A. -/
theorem claim_c5_witness :
    extract_costs_from_response 3 c5Reply Category.flight = (1320, String.mk c5Line) ∧
    extract_costs_from_response 3 c5Reply Category.flight
      = (1320, "Standard: Korean Air - $1320 (19h 10m, 1 stop (Seoul))") :=
  claim_c5 3 c5Reply c5Line 1320 (by decide) (by decide)

/-- C6: activity extraction ignores the recommendation label: the cost is
the first parsable `$`-amount on the first `TOTAL ACTIVITIES:` line, with
details fixed to "Activity plan created"; appending any `BEST CHOICE:`
line (and changing `nights`) leaves the activity result unchanged; the
concrete reply with a `BEST CHOICE` line yields
`(120, "Activity plan created")`. -/
theorem claim_c6 (nights nights2 : Int) (response choice : String) (l : List Char) (a : Nat)
    (hfind : (pyLines response).find? activityLineCond = some l)
    (hnum : findDollarNum l = some a)
    (hnl : ¬ '\n' ∈ choice.toList) :
    extract_costs_from_response nights response Category.activity
      = ((a : Int), "Activity plan created") ∧
    extract_costs_from_response nights2 (response ++ "\nBEST CHOICE: " ++ choice) Category.activity
      = extract_costs_from_response nights response Category.activity ∧
    extract_costs_from_response nights "BEST CHOICE: Budget\nTOTAL ACTIVITIES: $120"
        Category.activity
      = (120, "Activity plan created") := by
  have hscan := activityScan_of_find _ _ _ hfind hnum
  exact ⟨by simp only [extract_costs_from_response, hscan],
    extract_activity_append_bestchoice nights nights2 response choice hnl, rfl⟩

/-- Witness for C6 at a concrete activity reply and appended label line. -/
theorem claim_c6_witness :
    extract_costs_from_response 1 "TOTAL ACTIVITIES: $45" Category.activity
      = (45, "Activity plan created") ∧
    extract_costs_from_response 2 ("TOTAL ACTIVITIES: $45" ++ "\nBEST CHOICE: " ++ "Standard")
        Category.activity
      = extract_costs_from_response 1 "TOTAL ACTIVITIES: $45" Category.activity ∧
    extract_costs_from_response 1 "BEST CHOICE: Budget\nTOTAL ACTIVITIES: $120" Category.activity
      = (120, "Activity plan created") :=
  claim_c6 1 2 "TOTAL ACTIVITIES: $45" "Standard" ("TOTAL ACTIVITIES: $45".toList) 45
    (by decide) (by decide) (by decide)

/-- C7: the amount parser returns the first maximal digit run that
immediately follows a `$`; consequently a thousands-separated price such
as `$1,850` parses as `1`, and a flight reply quoting `$1,850` extracts
cost 1. -/
theorem claim_c7 (a ds rest : List Char)
    (h1 : findDollarNum a = none) (h2 : ds ≠ []) (h3 : ds.all Char.isDigit = true)
    (h4 : headNotDigit rest = true) :
    findDollarNum (a ++ '$' :: (ds ++ rest)) = some (digitsVal ds) ∧
    findDollarNum "$1,850".toList = some 1 ∧
    extract_costs_from_response 3
        "BEST CHOICE: Premium\nPremium: United Airlines - $1,850 (14h 20m, Direct)" Category.flight
      = (1, "Premium: United Airlines - $1,850 (14h 20m, Direct)") :=
  ⟨findDollarNum_first_run a ds rest h1 h2 h3 h4, by decide, by decide⟩

/-- Witness for C7 at the `$1,850` line. -/
theorem claim_c7_witness :
    findDollarNum ("Premium: United Airlines - ".toList ++ '$' :: (['1'] ++ ",850 (14h 20m, Direct)".toList))
      = some (digitsVal ['1']) ∧
    findDollarNum "$1,850".toList = some 1 ∧
    extract_costs_from_response 3
        "BEST CHOICE: Premium\nPremium: United Airlines - $1,850 (14h 20m, Direct)" Category.flight
      = (1, "Premium: United Airlines - $1,850 (14h 20m, Direct)") :=
  claim_c7 "Premium: United Airlines - ".toList ['1'] ",850 (14h 20m, Direct)".toList
    (by decide) (by decide) (by decide) (by decide)

/-- C8: construction fails exactly when the budget or the number of
nights is non-positive or one of the two trimmed place names is empty;
the failure is a raised error (modelled by `Except.error`), surfaced to
the caller. -/
theorem claim_c8 (budget : Int) (origin destination : String) (nights : Int) :
    (∃ e, initPlanner budget origin destination nights = Except.error e) ↔
      (budget ≤ 0 ∨ nights ≤ 0 ∨ pyStripStr origin = "" ∨ pyStripStr destination = "") := by
  unfold initPlanner
  by_cases h1 : budget ≤ 0
  · rw [if_pos h1]
    exact ⟨fun _ => Or.inl h1, fun _ => ⟨_, rfl⟩⟩
  · rw [if_neg h1]
    by_cases h2 : nights ≤ 0
    · rw [if_pos h2]
      exact ⟨fun _ => Or.inr (Or.inl h2), fun _ => ⟨_, rfl⟩⟩
    · rw [if_neg h2]
      by_cases h3 : pyStripStr origin = "" ∨ pyStripStr destination = ""
      · rw [if_pos h3]
        refine ⟨fun _ => ?_, fun _ => ⟨_, rfl⟩⟩
        rcases h3 with h3 | h3
        · exact Or.inr (Or.inr (Or.inl h3))
        · exact Or.inr (Or.inr (Or.inr h3))
      · rw [if_neg h3]
        constructor
        · rintro ⟨e, he⟩
          exact Except.noConfusion he
        · rintro (h | h | h | h)
          · exact absurd h h1
          · exact absurd h h2
          · exact absurd (Or.inl h) h3
          · exact absurd (Or.inr h) h3

/-- C9: a planning run always produces a result record (every modelled
failure point is absorbed earlier), and even when all three agent calls
fail the returned record is complete: all nine fields are present, with
zero costs, the full budget remaining, and sentinel recommendation
strings. -/
theorem claim_c9 (p : TravelPlannerAG2) (fo ho ao : Except String AgentRawResponse) :
    (plan_trip p fo ho ao).isSome = true ∧
    (∀ e₁ e₂ e₃ : String, ∃ r : TripPlanResult,
      plan_trip p (Except.error e₁) (Except.error e₂) (Except.error e₃) = some r ∧
      r.total_cost = 0 ∧ r.flight_cost = 0 ∧ r.hotel_cost = 0 ∧ r.activity_cost = 0 ∧
      r.remaining_budget = p.budget ∧ (r.within_budget = true ↔ 0 ≤ p.budget) ∧
      r.flight_recommendation = "No details available" ∧
      r.hotel_recommendation = "No details available" ∧
      r.activity_recommendation = "No details available") := by
  refine ⟨rfl, ?_⟩
  intro e₁ e₂ e₃
  refine ⟨_, rfl, rfl, rfl, rfl, rfl, ?_, ?_, rfl, rfl, rfl⟩
  · show p.budget - (0 + 0 + 0) = p.budget
    omega
  · show decide ((0 : Int) + 0 + 0 ≤ p.budget) = true ↔ 0 ≤ p.budget
    constructor
    · intro h
      have := of_decide_eq_true h
      omega
    · intro h
      exact decide_eq_true (by omega)

/-- C10: the flight and activity extractions read nothing but the reply
text, so they coincide for any two planner instances with the same route,
whatever their budgets and nights; the hotel extraction genuinely depends
on nights through the per-night fallback multiplication. -/
theorem claim_c10 :
    (∀ (p q : TravelPlannerAG2) (response : String),
      p.origin = q.origin → p.destination = q.destination →
      extractForPlanner p response Category.flight
          = extractForPlanner q response Category.flight ∧
      extractForPlanner p response Category.activity
          = extractForPlanner q response Category.activity) ∧
    extractForPlanner { budget := 3500, origin := "A", destination := "B", nights := 1 }
        "BEST CHOICE: Budget\nBudget: Hotel X - $45 (Center)" Category.hotel
      ≠ extractForPlanner { budget := 3500, origin := "A", destination := "B", nights := 2 }
        "BEST CHOICE: Budget\nBudget: Hotel X - $45 (Center)" Category.hotel :=
  ⟨fun _ _ _ _ _ => ⟨rfl, rfl⟩, by decide⟩

/-- Witness for C10 on two planners sharing a route but differing in
budget and nights. -/
theorem claim_c10_witness :
    extractForPlanner { budget := 1000, origin := "Rome", destination := "Oslo", nights := 2 }
        "x" Category.flight
      = extractForPlanner { budget := 2000, origin := "Rome", destination := "Oslo", nights := 9 }
        "x" Category.flight ∧
    extractForPlanner { budget := 1000, origin := "Rome", destination := "Oslo", nights := 2 }
        "x" Category.activity
      = extractForPlanner { budget := 2000, origin := "Rome", destination := "Oslo", nights := 9 }
        "x" Category.activity :=
  claim_c10.1 { budget := 1000, origin := "Rome", destination := "Oslo", nights := 2 }
    { budget := 2000, origin := "Rome", destination := "Oslo", nights := 9 } "x" rfl rfl

end TravelPlanner
